import Mathlib

/-!
Shallow embedding of the client-side state layer of this repository:
the agent/crew orchestration store (`src/unnamed/part_000`), the
conversation store (`src/lexos-h100-build/frontend/src/store/chatStore.ts`),
the send-turn handler (`src/unnamed/part_002`, `ChatContainer`), and the
push-channel gateway (`src/unnamed/part_004`, `WebSocketClient`).

Conventions of the embedding:
- JavaScript `Date.now()` is modelled by an explicit `now : Nat` parameter;
  each synchronous store mutation receives one clock value (the source reads
  the clock several times inside one synchronous block; those reads are
  modelled by the same value, or by distinct parameters where the block
  spans an `await`).
- A backend call is modelled by an `Except TransportError α` parameter
  that stands for the settled outcome of the awaited promise.
- JavaScript `undefined`/optional fields are `Option`; `Record<string, any>`
  metadata is modelled by a structure holding exactly the keys the embedded
  code consults.
- Zustand `set` merges a partial state into the current state; the embedding
  writes the merge out as a structure update on the state reached at that
  point of the control flow.
-/

namespace LexOS

/-! ## Data model of the orchestration store (src/unnamed/part_000) -/

inductive CrewStatus
  | idle
  | running
  | completed
  | failed
deriving DecidableEq, Repr

inductive TaskStatus
  | pending
  | running
  | completed
  | failed
deriving DecidableEq, Repr

inductive ProcessType
  | sequential
  | hierarchical
deriving DecidableEq, Repr

/-- Agent record of `src/unnamed/part_000`. -/
structure Agent where
  id : String
  name : String
  role : String
  goal : String
  template : String
  model : String
  tools : List String
  createdAt : Nat
  updatedAt : Nat
deriving DecidableEq, Repr

/-- Task record of `src/unnamed/part_000`. -/
structure Task where
  id : String
  description : String
  agentId : String
  expectedOutput : String
  status : TaskStatus
  result : Option String
  createdAt : Nat
  updatedAt : Nat
deriving DecidableEq, Repr

/-- Crew record of `src/unnamed/part_000`. -/
structure Crew where
  id : String
  name : String
  agents : List String
  tasks : List Task
  processType : ProcessType
  status : CrewStatus
  result : Option String
  createdAt : Nat
  updatedAt : Nat
  completedAt : Option Nat
  duration : Option Nat
deriving DecidableEq, Repr

/-- The state held by `useAgentStore` (the fields, without the actions). -/
structure AgentState where
  agents : List Agent
  crews : List Crew
  availableTemplates : List String
  availableTools : List String
  isLoading : Bool
  error : Option String
deriving DecidableEq, Repr

/-- Error value carried by a failed backend call (axios rejection). -/
structure TransportError where
  status : Nat
  message : String
deriving DecidableEq, Repr

/-- Response of `POST /crew/create`. -/
structure CrewResponse where
  crew_id : String
deriving DecidableEq, Repr

/-- Response of `POST /crew/{id}/run`. -/
structure CrewRunResponse where
  crew_id : String
  result : String
  duration : Nat
deriving DecidableEq, Repr

/-- Response of `GET /crew/templates`. -/
structure CrewTemplatesResponse where
  agent_templates : List String
  tools : List String
deriving DecidableEq, Repr

/-- One task entry of the `POST /crew/create` request body. -/
structure ApiTask where
  description : String
  agent_index : Int
  expected_output : String
deriving DecidableEq, Repr

/-- Request body of `POST /crew/create` as built by `createCrew`. -/
structure CrewRequest where
  crew_name : String
  agent_templates : List String
  tasks : List ApiTask
  process_type : ProcessType
deriving DecidableEq, Repr

/-- Argument of `createCrew`: `Omit<Crew, 'id' | 'createdAt' | 'updatedAt' | 'status'>`. -/
structure CrewDraft where
  name : String
  agents : List String
  tasks : List Task
  processType : ProcessType
  result : Option String
  completedAt : Option Nat
  duration : Option Nat
deriving DecidableEq, Repr

/-- Partial crew update accepted by `updateCrew`
(`Partial<Omit<Crew, 'id' | 'createdAt' | 'updatedAt'>>`): `none` means the
field is absent from the update object. -/
structure CrewUpdates where
  name : Option String
  agents : Option (List String)
  tasks : Option (List Task)
  processType : Option ProcessType
  status : Option CrewStatus
  result : Option (Option String)
  completedAt : Option (Option Nat)
  duration : Option (Option Nat)
deriving DecidableEq, Repr

/-- Spread `{ ...crew, ...updates, updatedAt: Date.now() }` of `updateCrew`. -/
def applyCrewUpdates (c : Crew) (u : CrewUpdates) (now : Nat) : Crew :=
  { c with
    name := u.name.getD c.name
    agents := u.agents.getD c.agents
    tasks := u.tasks.getD c.tasks
    processType := u.processType.getD c.processType
    status := u.status.getD c.status
    result := u.result.getD c.result
    completedAt := u.completedAt.getD c.completedAt
    duration := u.duration.getD c.duration
    updatedAt := now }

/-- `updateCrew` of `src/unnamed/part_000` (lines 158-166). -/
def updateCrew (st : AgentState) (id : String) (u : CrewUpdates) (now : Nat) : AgentState :=
  { st with crews := st.crews.map (fun crew =>
      if crew.id == id then applyCrewUpdates crew u now else crew) }

/-- `deleteCrew` of `src/unnamed/part_000`. -/
def deleteCrew (st : AgentState) (id : String) : AgentState :=
  { st with crews := st.crews.filter (fun crew => crew.id != id) }

/-- JavaScript `agent?.template || 'researcher'` from `createCrew`
(`||` treats the empty string as falsy). -/
def templateOr (a : Option Agent) : String :=
  match a with
  | some ag => if ag.template == "" then "researcher" else ag.template
  | none => "researcher"

/-- The local crew record built by `createCrew` before the backend call:
`{ ...crewData, id, status: 'idle', createdAt: Date.now(), updatedAt: Date.now() }`. -/
def localCrew (draft : CrewDraft) (localId : String) (now : Nat) : Crew :=
  { id := localId
    name := draft.name
    agents := draft.agents
    tasks := draft.tasks
    processType := draft.processType
    status := CrewStatus.idle
    result := draft.result
    createdAt := now
    updatedAt := now
    completedAt := draft.completedAt
    duration := draft.duration }

/-- The `apiCrewData` request body built by `createCrew`: each member agent is
translated to its template tag (defaulting to `'researcher'`) and each task's
agent reference to its positional index in the crew's agent list
(`findIndex`, `-1` when absent). -/
def buildCrewRequest (agents : List Agent) (crew : Crew) : CrewRequest :=
  { crew_name := crew.name
    agent_templates := crew.agents.map (fun agentId =>
      templateOr (agents.find? (fun a => a.id == agentId)))
    tasks := crew.tasks.map (fun task =>
      { description := task.description
        agent_index :=
          (match crew.agents.findIdx? (fun agentId => agentId == task.agentId) with
           | some i => (i : Int)
           | none => -1)
        expected_output := task.expectedOutput })
    process_type := crew.processType }

/-- Result of a `createCrew` call: the post state, the request that was
submitted, and either the returned crew id (`Except.ok`) or the error the
operation re-raised to its caller (`Except.error`, modelling the `throw error`
in the catch block). -/
structure CreateCrewOutcome where
  state : AgentState
  request : CrewRequest
  ret : Except TransportError String
deriving Repr

/-- `createCrew` of `src/unnamed/part_000` (lines 108-156): sets the loading
flag, builds the local crew (status `idle`) and the request, and on backend
success overwrites the local id with the backend `crew_id` and appends the
crew; on failure it sets the store error field and re-raises the error. -/
def createCrew (st : AgentState) (draft : CrewDraft) (localId : String) (now : Nat)
    (backend : Except TransportError CrewResponse) : CreateCrewOutcome :=
  let st1 : AgentState := { st with isLoading := true, error := none }
  let crew := localCrew draft localId now
  let req := buildCrewRequest st1.agents crew
  match backend with
  | Except.ok resp =>
      { state := { st1 with crews := st1.crews ++ [{ crew with id := resp.crew_id }], isLoading := false }
        request := req
        ret := Except.ok resp.crew_id }
  | Except.error e =>
      { state := { st1 with error := some "Failed to create crew", isLoading := false }
        request := req
        ret := Except.error e }

/-- First half of `runCrew` (lines 174-185): the two synchronous `set` calls
before the `await` — loading flag on, error cleared, and the optimistic
transition of the targeted crew to `running`. -/
def runCrewStart (st : AgentState) (id : String) (now : Nat) : AgentState :=
  let st1 : AgentState := { st with isLoading := true, error := none }
  { st1 with crews := st1.crews.map (fun crew =>
      if crew.id == id then { crew with status := CrewStatus.running, updatedAt := now } else crew) }

/-- Second half of `runCrew` (lines 187-219): the `set` applied after the
backend call settles — `completed` with result/completedAt/duration on
success, `failed` plus the store error field on failure (the catch block
swallows the error; nothing is re-raised). -/
def runCrewFinish (st : AgentState) (id : String) (now : Nat)
    (backend : Except TransportError CrewRunResponse) : AgentState :=
  match backend with
  | Except.ok resp =>
      { st with
        crews := st.crews.map (fun crew =>
          if crew.id == id then
            { crew with
              status := CrewStatus.completed
              result := some resp.result
              completedAt := some now
              duration := some resp.duration
              updatedAt := now }
          else crew)
        isLoading := false }
  | Except.error _ =>
      { st with
        crews := st.crews.map (fun crew =>
          if crew.id == id then { crew with status := CrewStatus.failed, updatedAt := now } else crew)
        error := some "Failed to run crew"
        isLoading := false }

/-- `runCrew` of `src/unnamed/part_000` (lines 174-220): the optimistic start
followed by the settling step. -/
def runCrew (st : AgentState) (id : String) (now1 now2 : Nat)
    (backend : Except TransportError CrewRunResponse) : AgentState :=
  runCrewFinish (runCrewStart st id now1) id now2 backend

/-- `fetchTemplates` of `src/unnamed/part_000` (lines 222-240): overwrites the
template/tool vocabularies on success, sets the store error field on failure;
the catch block swallows the error. -/
def fetchTemplates (st : AgentState)
    (backend : Except TransportError CrewTemplatesResponse) : AgentState :=
  let st1 : AgentState := { st with isLoading := true, error := none }
  match backend with
  | Except.ok r =>
      { st1 with
        availableTemplates := r.agent_templates
        availableTools := r.tools
        isLoading := false }
  | Except.error _ =>
      { st1 with error := some "Failed to fetch agent templates", isLoading := false }

/-! ## Data model of the conversation store (chatStore.ts, src/unnamed/part_004 types) -/

inductive Role
  | user
  | assistant
  | system
deriving DecidableEq, Repr

/-- Metadata record attached to messages and history items
(`Record<string, any>` in the source, modelled by the keys the embedded code
reads: `timestamp`, `model_used`, `provider`, `tokens_used`, `cost`). -/
structure Metadata where
  timestamp : Option Nat
  model_used : Option String
  provider : Option String
  tokens_used : Option Nat
  cost : Option Nat
deriving DecidableEq, Repr

/-- `ChatMessage` of `src/unnamed/part_004` (lib/socket). -/
structure ChatMessage where
  id : String
  role : Role
  content : String
  timestamp : Nat
  model : Option String
  provider : Option String
  tokens : Option Nat
  cost : Option Nat
  metadata : Option Metadata
deriving DecidableEq, Repr

/-- Conversation record of `chatStore.ts`. -/
structure Conversation where
  id : String
  title : String
  messages : List ChatMessage
  createdAt : Nat
  updatedAt : Nat
  systemPrompt : Option String
deriving DecidableEq, Repr

/-- The state held by `useChatStore` (the fields, without the actions). -/
structure ChatState where
  conversations : List Conversation
  activeConversationId : Option String
  isLoading : Bool
  error : Option String
deriving DecidableEq, Repr

/-- `createConversation` of `chatStore.ts`: prepends a fresh conversation and
marks it active (the generated uuid is a parameter). -/
def createConversation (st : ChatState) (title : String) (systemPrompt : Option String)
    (id : String) (now : Nat) : ChatState :=
  let conversation : Conversation :=
    { id := id
      title := title
      messages := []
      createdAt := now
      updatedAt := now
      systemPrompt := systemPrompt }
  { st with
    conversations := conversation :: st.conversations
    activeConversationId := some id }

/-- `setActiveConversation` of `chatStore.ts`. -/
def setActiveConversation (st : ChatState) (id : String) : ChatState :=
  { st with activeConversationId := some id }

/-- `addMessage` of `chatStore.ts` (lines 68-86): appends to the active
conversation and bumps its `updatedAt`; no-op when no conversation is active. -/
def addMessage (st : ChatState) (message : ChatMessage) (now : Nat) : ChatState :=
  match st.activeConversationId with
  | none => st
  | some activeId =>
      { st with conversations := st.conversations.map (fun conv =>
          if conv.id == activeId then
            { conv with messages := conv.messages ++ [message], updatedAt := now }
          else conv) }

/-- `updateMessage` of `chatStore.ts` (lines 88-113): replaces the content of
the matching message inside the active conversation and bumps the active
conversation's `updatedAt` (whether or not any message matched). -/
def updateMessage (st : ChatState) (id content : String) (now : Nat) : ChatState :=
  match st.activeConversationId with
  | none => st
  | some activeId =>
      { st with conversations := st.conversations.map (fun conv =>
          if conv.id == activeId then
            { conv with
              messages := conv.messages.map (fun msg =>
                if msg.id == id then { msg with content := content } else msg)
              updatedAt := now }
          else conv) }

/-- `deleteMessage` of `chatStore.ts` (lines 115-133): filters the matching
message out of the active conversation and bumps the active conversation's
`updatedAt` (whether or not any message matched). -/
def deleteMessage (st : ChatState) (id : String) (now : Nat) : ChatState :=
  match st.activeConversationId with
  | none => st
  | some activeId =>
      { st with conversations := st.conversations.map (fun conv =>
          if conv.id == activeId then
            { conv with
              messages := conv.messages.filter (fun msg => msg.id != id)
              updatedAt := now }
          else conv) }

/-- `deleteConversation` of `chatStore.ts` (lines 135-151): removes the
targeted conversation; if it was active, the first remaining conversation in
list order becomes active (`updatedConversations[0]`), or `null` if none
remain. -/
def deleteConversation (st : ChatState) (id : String) : ChatState :=
  let updated := st.conversations.filter (fun conv => conv.id != id)
  let newActiveId :=
    if st.activeConversationId == some id then
      match updated with
      | [] => none
      | c :: _ => some c.id
    else st.activeConversationId
  { st with conversations := updated, activeConversationId := newActiveId }

/-- `updateConversationTitle` of `chatStore.ts` (lines 219-230). -/
def updateConversationTitle (st : ChatState) (id title : String) (now : Nat) : ChatState :=
  { st with conversations := st.conversations.map (fun conv =>
      if conv.id == id then { conv with title := title, updatedAt := now } else conv) }

/-- One item of `GET /memory/conversation/{id}`'s `history` array. -/
structure HistoryItem where
  user : String
  assistant : String
  metadata : Metadata
deriving DecidableEq, Repr

/-- JavaScript `new Date(item.metadata.timestamp || Date.now()).getTime()`:
the metadata timestamp when present and nonzero (`||` treats `0` as falsy),
the current clock otherwise. -/
def tsOrNow (ts : Option Nat) (now : Nat) : Nat :=
  match ts with
  | some t => if t == 0 then now else t
  | none => now

/-- User message reconstructed by `loadConversationHistory` for history item
`item` at position `index`. -/
def mkHistoryUserMsg (index : Nat) (item : HistoryItem) (now : Nat) : ChatMessage :=
  { id := "history-" ++ toString index ++ "-" ++ toString now
    role := Role.user
    content := item.user
    timestamp := tsOrNow item.metadata.timestamp now
    model := none
    provider := none
    tokens := none
    cost := none
    metadata := some item.metadata }

/-- Assistant message reconstructed by `loadConversationHistory` for history
item `item` at position `index`; its timestamp is the paired user timestamp
plus one (the source comment: `// +1 to ensure order`). -/
def mkHistoryAssistantMsg (index : Nat) (item : HistoryItem) (now : Nat) : ChatMessage :=
  { id := "history-" ++ toString index ++ "-assistant-" ++ toString now
    role := Role.assistant
    content := item.assistant
    timestamp := tsOrNow item.metadata.timestamp now + 1
    model := item.metadata.model_used
    provider := item.metadata.provider
    tokens := item.metadata.tokens_used
    cost := item.metadata.cost
    metadata := some item.metadata }

/-- The message list built by `loadConversationHistory` from the fetched
history. The source first `map`s the history to user messages and then
`flatMap`s each user message together with `history[index]` into a
user/assistant pair; both traversals walk the same indices, so the build is
pointwise the pair of the two constructors at each index. -/
def historyMessages (history : List HistoryItem) (now : Nat) : List ChatMessage :=
  history.enum.flatMap (fun p => [mkHistoryUserMsg p.1 p.2 now, mkHistoryAssistantMsg p.1 p.2 now])

/-- `loadConversationHistory` of `chatStore.ts` (lines 157-209): on success
replaces the targeted conversation's message list wholesale by the
reconstructed pairs; on failure only sets the store error field. -/
def loadConversationHistory (st : ChatState) (conversationId : String) (now : Nat)
    (backend : Except TransportError (List HistoryItem)) : ChatState :=
  let st1 : ChatState := { st with isLoading := true, error := none }
  match backend with
  | Except.ok history =>
      let messages := historyMessages history now
      { st1 with
        conversations := st1.conversations.map (fun conv =>
          if conv.id == conversationId then
            { conv with messages := messages, updatedAt := now }
          else conv)
        isLoading := false }
  | Except.error _ =>
      { st1 with error := some "Failed to load conversation history", isLoading := false }

/-! ## Send-turn handler (`handleSendMessage` of the chat container, src/unnamed/part_002) -/

/-- Model settings read from the settings store (`settingsStore.ts`); the
JavaScript float preferences are embedded as rationals, they are only carried
into the request. -/
structure ModelSettings where
  temperature : Rat
  maxTokens : Nat
  topP : Rat
  preferredProvider : Option String
  preferredModel : Option String
deriving DecidableEq, Repr

/-- Request body of `POST /chat` as built by `handleSendMessage`. -/
structure ChatRequest where
  prompt : String
  conversation_id : Option String
  system_prompt : Option String
  max_tokens : Nat
  temperature : Rat
  top_p : Rat
  force_provider : Option String
deriving DecidableEq, Repr

/-- Response body of `POST /chat`. -/
structure ChatResponse where
  text : String
  model_used : String
  provider : String
  tokens_used : Nat
  cost : Nat
  latency_ms : Nat
  metadata : Option Metadata
deriving DecidableEq, Repr

/-- JavaScript `modelSettings.preferredProvider || undefined` (`||` treats the
empty string as falsy). -/
def providerOrNone (p : Option String) : Option String :=
  match p with
  | some s => if s == "" then none else some s
  | none => none

/-- `handleSendMessage` of `src/unnamed/part_002` (ChatContainer, lines
166-232): no-op when no conversation is active; otherwise appends the user
message, appends the placeholder assistant message with sentinel content
`"..."`, issues the chat request, and on resolution calls `updateMessage` on
the captured placeholder id — with the response text on success, with the
fixed apology notice on failure. The `updatedAssistantMessage` record built on
success (carrying the provenance fields) is dead in the source: only
`updateMessage(assistantMessageId, response.data.text)` runs, so no provenance
is attached. The pair also returns the request that was issued (`none` when
the handler returned early). -/
def handleSendMessage (st : ChatState) (content : String) (userId assistantId : String)
    (t1 t2 : Nat) (settings : ModelSettings)
    (backend : Except TransportError ChatResponse) (now3 : Nat) :
    ChatState × Option ChatRequest :=
  match st.activeConversationId with
  | none => (st, none)
  | some activeId =>
      let userMessage : ChatMessage :=
        { id := userId, role := Role.user, content := content, timestamp := t1
          model := none, provider := none, tokens := none, cost := none, metadata := none }
      let st1 := addMessage st userMessage t1
      let assistantMessage : ChatMessage :=
        { id := assistantId, role := Role.assistant, content := "...", timestamp := t2
          model := none, provider := none, tokens := none, cost := none, metadata := none }
      let st2 := addMessage st1 assistantMessage t2
      let activeConversation := st.conversations.find? (fun conv => conv.id == activeId)
      let request : ChatRequest :=
        { prompt := content
          conversation_id := some activeId
          system_prompt := activeConversation.bind (fun conv => conv.systemPrompt)
          max_tokens := settings.maxTokens
          temperature := settings.temperature
          top_p := settings.topP
          force_provider := providerOrNone settings.preferredProvider }
      match backend with
      | Except.ok resp =>
          let updatedAssistantMessage : ChatMessage :=
            { id := assistantId, role := Role.assistant, content := resp.text, timestamp := now3
              model := some resp.model_used, provider := some resp.provider
              tokens := some resp.tokens_used, cost := some resp.cost
              metadata := resp.metadata }
          (updateMessage st2 assistantId resp.text now3, some request)
      | Except.error _ =>
          (updateMessage st2 assistantId
            "Sorry, there was an error processing your request. Please try again." now3,
           some request)

/-! ## Push-channel gateway (`WebSocketClient` of src/unnamed/part_004) -/

/-- Request sent over the push channel (`ChatRequest` of lib/socket). -/
structure WsChatRequest where
  prompt : String
  conversation_id : Option String
  system_prompt : Option String
  max_tokens : Option Nat
  temperature : Option Rat
  top_p : Option Rat
  task_type : Option String
  user_id : Option String
deriving DecidableEq, Repr

/-- The event emitted by `sendMessage`: the request spread together with the
freshly generated `message_id`. -/
structure WsEmit where
  request : WsChatRequest
  message_id : String
deriving DecidableEq, Repr

/-- An incoming push payload. The client's `ChatResponse` type omits a
correlation field and `handleMessage` consults none, but the backend contract
may echo the `message_id` of the originating request on the wire, so the
embedding carries it as an optional field (ignored by the embedded code,
exactly as the source ignores every field when dispatching). -/
structure PushResponse where
  message_id : Option String
  text : String
  model_used : String
  provider : String
  tokens_used : Nat
  cost : Nat
  latency_ms : Nat
  error : Option String
deriving DecidableEq, Repr

/-- State of the `WebSocketClient` relevant to message correlation: the
`messageHandlers` map, in insertion order, each callback represented by an
opaque tag. -/
structure SocketState where
  messageHandlers : List (String × Nat)
deriving DecidableEq, Repr

/-- `sendMessage` of `src/unnamed/part_004` (lines 90-114), on a connected
socket: registers `onResponse` under the freshly generated `messageId` in the
`messageHandlers` map and emits the request tagged with that id. -/
def sendMessage (s : SocketState) (request : WsChatRequest) (messageId : String)
    (onResponse : Nat) : SocketState × WsEmit :=
  ({ messageHandlers := s.messageHandlers ++ [(messageId, onResponse)] },
   { request := request, message_id := messageId })

/-- `handleMessage` of `src/unnamed/part_004` (lines 117-123): invokes every
registered handler with the incoming payload (`messageHandlers.forEach`) and
leaves the map untouched — no per-identifier lookup, no removal. Returns the
unchanged state together with the list of (handler tag, payload) invocations
in map order. -/
def handleMessage (s : SocketState) (response : PushResponse) :
    SocketState × List (Nat × PushResponse) :=
  (s, s.messageHandlers.map (fun p => (p.2, response)))

/-! ## Concrete fixtures used by counterexamples and witnesses -/

/-- A crew sitting in the `idle` state. -/
def idleCrew : Crew :=
  { id := "c1", name := "demo crew", agents := [], tasks := []
    processType := ProcessType.sequential, status := CrewStatus.idle
    result := none, createdAt := 0, updatedAt := 0, completedAt := none, duration := none }

/-- An orchestration store holding the single idle crew. -/
def demoAgentState : AgentState :=
  { agents := [], crews := [idleCrew], availableTemplates := [], availableTools := []
    isLoading := false, error := none }

/-- An empty orchestration store. -/
def emptyAgentState : AgentState :=
  { agents := [], crews := [], availableTemplates := [], availableTools := []
    isLoading := false, error := none }

/-- A crew draft with no agents and no tasks. -/
def draft0 : CrewDraft :=
  { name := "crew", agents := [], tasks := [], processType := ProcessType.sequential
    result := none, completedAt := none, duration := none }

/-- A concrete transport failure. -/
def err0 : TransportError := { status := 500, message := "network down" }

/-- A partial crew update that only supplies `status: 'completed'`. -/
def statusOnlyUpdate : CrewUpdates :=
  { name := none, agents := none, tasks := none, processType := none
    status := some CrewStatus.completed, result := none, completedAt := none, duration := none }

/-! ## Claim C1 -/

/-- C1, counterexample: the store holds a single crew in state `idle`, and one
`updateCrew` call carrying `status: 'completed'` moves it directly from `idle`
to `completed` — `updateCrew` applies any caller-supplied status, so the
claimed transition discipline does not hold for every store operation. -/
theorem C1_counterexample :
    demoAgentState.crews.map (fun c => c.status) = [CrewStatus.idle] ∧
    (updateCrew demoAgentState "c1" statusOnlyUpdate 5).crews.map (fun c => c.status)
      = [CrewStatus.completed] :=
  ⟨rfl, rfl⟩

/-- C1, amended: `createCrew` only ever inserts crews with status `idle`,
and `runCrew` factors through an intermediate state in which the targeted
crew is `running` before any terminal `completed`/`failed` status is written,
so neither moves a crew directly from `idle` to `completed` or `failed`;
`updateCrew`, however, writes whatever status the caller supplies
(defaulting to the current one), so it can move a crew between any two
statuses directly. -/
theorem C1_theorem (st : AgentState) (d : CrewDraft) (l : String) (n : Nat)
    (b : Except TransportError CrewResponse) (id : String) (n1 n2 now : Nat)
    (rb : Except TransportError CrewRunResponse) (u : CrewUpdates) (cr : Crew) :
    (∀ c ∈ (createCrew st d l n b).state.crews, c ∈ st.crews ∨ c.status = CrewStatus.idle) ∧
    runCrew st id n1 n2 rb = runCrewFinish (runCrewStart st id n1) id n2 rb ∧
    (∀ c ∈ (runCrewStart st id n1).crews, c.id = id → c.status = CrewStatus.running) ∧
    (applyCrewUpdates cr u now).status = u.status.getD cr.status := by
  refine ⟨?_, rfl, ?_, rfl⟩
  · intro c hc
    cases b with
    | ok resp =>
        simp only [createCrew, List.mem_append, List.mem_singleton] at hc
        rcases hc with hc | hc
        · exact Or.inl hc
        · right
          rw [hc]
          rfl
    | error e =>
        exact Or.inl hc
  · intro c hc hcid
    simp only [runCrewStart, List.mem_map] at hc
    obtain ⟨a, ha, hca⟩ := hc
    by_cases hb : a.id = id
    · rw [← hca]
      simp [hb]
    · rw [← hca] at hcid
      simp [hb] at hcid

/-- C1, witness: the amended theorem applied to the concrete store with one
idle crew — after the optimistic first step of `runCrew("c1")` the targeted
crew is `running`. -/
theorem C1_witness :
    ({ idleCrew with status := CrewStatus.running, updatedAt := 3 } : Crew).status
      = CrewStatus.running :=
  (C1_theorem demoAgentState draft0 "loc" 0 (Except.ok { crew_id := "abc123" }) "c1" 3 4 5
      (Except.ok { crew_id := "c1", result := "done", duration := 1 })
      statusOnlyUpdate idleCrew).2.2.1
    ({ idleCrew with status := CrewStatus.running, updatedAt := 3 }) (by decide) rfl

/-! ## Claim C5 -/

/-- C5: when the backend call of `runCrew` throws, the final state maps the
targeted crew to `failed` with a fresh `updatedAt` and leaves every other
field of that crew — in particular `result`, `completedAt` and `duration` —
exactly as it was before the run; besides the crews the operation only sets
the store error field and clears the loading flag. -/
theorem C5_theorem (st : AgentState) (id : String) (n1 n2 : Nat) (e : TransportError) :
    runCrew st id n1 n2 (Except.error e)
      = { st with
          crews := st.crews.map (fun crew =>
            if crew.id == id then { crew with status := CrewStatus.failed, updatedAt := n2 }
            else crew)
          error := some "Failed to run crew"
          isLoading := false } := by
  simp only [runCrew, runCrewStart, runCrewFinish, List.map_map]
  congr 1
  apply List.map_congr_left
  intro c _
  by_cases hb : c.id == id
  · simp [Function.comp, hb]
  · simp [Function.comp, hb]

/-! ## Claim C9 -/

/-- C9, counterexample: a failing `createCrew` call re-raises the transport
error to its caller (the catch block ends in `throw error`), so the failure
does escape the operation, contrary to the claim. -/
theorem C9_counterexample :
    (createCrew emptyAgentState draft0 "local-1" 0 (Except.error err0)).ret
      = Except.error err0 :=
  rfl

/-- C9, amended: every failing orchestration operation converts the network
failure into the store-level error field — `runCrew` additionally flips the
targeted crew to `failed`, and `runCrew`/`fetchTemplates` swallow the
failure — but `createCrew`, after setting the error field and retaining no
partial crew, re-raises the failure to its caller. -/
theorem C9_theorem (st : AgentState) (id : String) (n1 n2 n : Nat) (e : TransportError)
    (d : CrewDraft) (l : String) :
    (runCrew st id n1 n2 (Except.error e)).error = some "Failed to run crew" ∧
    (∀ c ∈ (runCrew st id n1 n2 (Except.error e)).crews,
        c.id = id → c.status = CrewStatus.failed) ∧
    (fetchTemplates st (Except.error e)).error = some "Failed to fetch agent templates" ∧
    (createCrew st d l n (Except.error e)).state.error = some "Failed to create crew" ∧
    (createCrew st d l n (Except.error e)).state.crews = st.crews ∧
    (createCrew st d l n (Except.error e)).ret = Except.error e := by
  refine ⟨rfl, ?_, rfl, rfl, rfl, rfl⟩
  intro c hc hcid
  simp only [runCrew, runCrewStart, runCrewFinish, List.map_map, List.mem_map] at hc
  obtain ⟨a, ha, hca⟩ := hc
  by_cases hb : a.id = id
  · rw [← hca]
    simp [Function.comp, hb]
  · rw [← hca] at hcid
    simp [Function.comp, hb] at hcid

/-- C9, witness: the amended theorem applied to the store with one crew —
after `runCrew("c1")` fails, that crew's status is `failed`. -/
theorem C9_witness :
    ({ idleCrew with status := CrewStatus.failed, updatedAt := 2 } : Crew).status
      = CrewStatus.failed :=
  (C9_theorem demoAgentState "c1" 1 2 0 err0 draft0 "loc").2.1
    ({ idleCrew with status := CrewStatus.failed, updatedAt := 2 }) (by decide) rfl

/-! ## Claim C4 -/

/-- C4: on backend failure `createCrew` leaves the crews list unchanged and —
starting from a quiescent store — changes nothing but the store error field;
on backend success the locally built crew is appended with its identifier
overwritten by the backend identifier, it has status `idle`, and (the backend
identifier being fresh) the crews list holds exactly one entry carrying it. -/
theorem C4_theorem (st : AgentState) (draft : CrewDraft) (localId : String) (now : Nat)
    (cid : String) (e : TransportError)
    (hload : st.isLoading = false)
    (hfresh : ∀ c ∈ st.crews, c.id ≠ cid) :
    (createCrew st draft localId now (Except.error e)).state
      = { st with error := some "Failed to create crew" } ∧
    (createCrew st draft localId now (Except.error e)).state.crews = st.crews ∧
    (createCrew st draft localId now (Except.ok { crew_id := cid })).state.crews
      = st.crews ++ [{ localCrew draft localId now with id := cid }] ∧
    ((createCrew st draft localId now (Except.ok { crew_id := cid })).state.crews.filter
        (fun c => c.id == cid)).length = 1 ∧
    ({ localCrew draft localId now with id := cid } : Crew).status = CrewStatus.idle ∧
    (createCrew st draft localId now (Except.ok { crew_id := cid })).ret = Except.ok cid := by
  refine ⟨?_, rfl, rfl, ?_, rfl, rfl⟩
  · simp only [createCrew]
    rw [← hload]
  · have hnil : st.crews.filter (fun c => c.id == cid) = [] := by
      apply List.filter_eq_nil_iff.mpr
      intro c hc
      simp only [beq_iff_eq]
      exact hfresh c hc
    simp only [createCrew, List.filter_append, hnil]
    simp

/-- C4, witness: the theorem applied to the empty store with backend id
`"abc123"` — the returned identifier is the backend one. -/
theorem C4_witness :
    (createCrew emptyAgentState draft0 "local-1" 7 (Except.ok { crew_id := "abc123" })).ret
      = Except.ok "abc123" :=
  (C4_theorem emptyAgentState draft0 "local-1" 7 "abc123" err0 rfl
    (by intro c hc; simp [emptyAgentState] at hc)).2.2.2.2.2

/-! ## Claim C6 -/

/-- Conversation `"A"`, created last (so it sits first in the list). -/
def convA : Conversation :=
  { id := "A", title := "A", messages := [], createdAt := 2, updatedAt := 2, systemPrompt := none }

/-- Conversation `"B"`, created second. -/
def convB : Conversation :=
  { id := "B", title := "B", messages := [], createdAt := 1, updatedAt := 1, systemPrompt := none }

/-- Conversation `"C"`, created first (so it sits last in the list). -/
def convC : Conversation :=
  { id := "C", title := "C", messages := [], createdAt := 0, updatedAt := 0, systemPrompt := none }

/-- A chat store holding `A`, `B`, `C` in most-recently-created order, with
`A` active. -/
def chatC6 : ChatState :=
  { conversations := [convA, convB, convC], activeConversationId := some "A"
    isLoading := false, error := none }

/-- C6, counterexample: after bumping conversation `C`'s `updatedAt` to 10
(a title edit) and deleting the active conversation `A`, the remaining list is
`B` (updatedAt 1) then `C` (updatedAt 10); the code selects `B` — the first
remaining conversation in list order — although `C` is the most recently
updated one, so the claimed most-recently-updated selection does not hold. -/
theorem C6_counterexample :
    ((deleteConversation (updateConversationTitle chatC6 "C" "renamed" 10) "A").conversations.map
        (fun conv => (conv.id, conv.updatedAt)) = [("B", 1), ("C", 10)]) ∧
    (deleteConversation (updateConversationTitle chatC6 "C" "renamed" 10) "A").activeConversationId
      = some "B" :=
  ⟨rfl, rfl⟩

/-- C6, amended: deleting the active conversation selects the first remaining
conversation in stored list order as the new active one (the list is ordered
by creation, most recent first, since `createConversation` prepends and no
operation reorders), or `null` when none remain; deleting a non-active
conversation leaves the selection unchanged. -/
theorem C6_theorem (st : ChatState) (id : String) :
    (st.activeConversationId = some id →
      (deleteConversation st id).activeConversationId
        = ((st.conversations.filter (fun conv => conv.id != id)).head?).map
            (fun conv => conv.id)) ∧
    (st.activeConversationId ≠ some id →
      (deleteConversation st id).activeConversationId = st.activeConversationId) ∧
    (deleteConversation st id).conversations
      = st.conversations.filter (fun conv => conv.id != id) := by
  refine ⟨?_, ?_, rfl⟩
  · intro hact
    simp only [deleteConversation, hact]
    rw [if_pos (by simp)]
    cases st.conversations.filter (fun conv => conv.id != id) with
    | nil => rfl
    | cons c cs => rfl
  · intro hact
    simp only [deleteConversation]
    rw [if_neg (by simpa using hact)]

/-- C6, witness: the amended theorem applied to the concrete three-conversation
store — deleting active `A` selects the head of the remaining list. -/
theorem C6_witness :
    (deleteConversation chatC6 "A").activeConversationId
      = ((chatC6.conversations.filter (fun conv => conv.id != "A")).head?).map
          (fun conv => conv.id) :=
  (C6_theorem chatC6 "A").1 rfl

/-! ## Claim C10 -/

/-- C10: with an active conversation and an identifier matching none of its
messages, `updateMessage` and `deleteMessage` leave every message (hence every
content, identifier and role) of every conversation unchanged, yet still
rewrite the active conversation's `updatedAt` to the current clock — the
stale-identifier "no-op" is not a full no-op on the state. -/
theorem C10_theorem (st : ChatState) (aid mid content : String) (now : Nat)
    (hact : st.activeConversationId = some aid)
    (hstale : ∀ conv ∈ st.conversations, conv.id = aid → ∀ m ∈ conv.messages, m.id ≠ mid) :
    updateMessage st mid content now
      = { st with conversations := st.conversations.map (fun conv =>
          if conv.id == aid then { conv with updatedAt := now } else conv) } ∧
    deleteMessage st mid now
      = { st with conversations := st.conversations.map (fun conv =>
          if conv.id == aid then { conv with updatedAt := now } else conv) } := by
  constructor
  · simp only [updateMessage, hact]
    congr 1
    apply List.map_congr_left
    intro conv hconv
    by_cases hc : conv.id = aid
    · have hmsgs : conv.messages.map
          (fun msg => if msg.id == mid then { msg with content := content } else msg)
            = conv.messages := by
        have hall : ∀ m ∈ conv.messages,
            (if m.id == mid then { m with content := content } else m) = m := by
          intro m hm
          have hne := hstale conv hconv hc m hm
          simp [hne]
        rw [List.map_congr_left hall, List.map_id']
      simp [hc]
      simpa using hmsgs
    · simp [hc]
  · simp only [deleteMessage, hact]
    congr 1
    apply List.map_congr_left
    intro conv hconv
    by_cases hc : conv.id = aid
    · have hmsgs : conv.messages.filter (fun msg => msg.id != mid) = conv.messages := by
        apply List.filter_eq_self.mpr
        intro m hm
        exact bne_iff_ne.mpr (hstale conv hconv hc m hm)
      simp [hc, hmsgs]
    · simp [hc]

/-- A user message with identifier `"m1"`. -/
def msg1 : ChatMessage :=
  { id := "m1", role := Role.user, content := "hello", timestamp := 1
    model := none, provider := none, tokens := none, cost := none, metadata := none }

/-- A conversation holding `msg1`. -/
def convW : Conversation :=
  { id := "conv1", title := "t", messages := [msg1], createdAt := 0, updatedAt := 0
    systemPrompt := none }

/-- A chat store with `convW` active. -/
def chatW : ChatState :=
  { conversations := [convW], activeConversationId := some "conv1"
    isLoading := false, error := none }

/-- C10, witness: the theorem applied to the one-conversation store with the
stale identifier `"zz"`. -/
theorem C10_witness :
    updateMessage chatW "zz" "new content" 9
      = { chatW with conversations := chatW.conversations.map (fun conv =>
          if conv.id == "conv1" then { conv with updatedAt := 9 } else conv) } :=
  (C10_theorem chatW "conv1" "zz" "new content" 9 rfl (by decide)).1

/-! ## Claim C2 -/

/-- A fresh, empty conversation as auto-created for a new session. -/
def freshConv : Conversation :=
  { id := "conv1", title := "New Conversation", messages := [], createdAt := 0, updatedAt := 0
    systemPrompt := none }

/-- A fresh chat store with the empty conversation active. -/
def freshChat : ChatState :=
  { conversations := [freshConv], activeConversationId := some "conv1"
    isLoading := false, error := none }

/-- Default model settings of `settingsStore.ts`. -/
def settings0 : ModelSettings :=
  { temperature := 7 / 10, maxTokens := 1024, topP := 9 / 10
    preferredProvider := none, preferredModel := none }

/-- A successful chat response carrying provenance data. -/
def okResp : ChatResponse :=
  { text := "hi there", model_used := "llama-h100", provider := "local"
    tokens_used := 5, cost := 0, latency_ms := 10, metadata := none }

/-- C2: evaluating the send-turn handler on a fresh session. On success the
conversation holds the user message `"hello"` followed by the former
placeholder whose identifier is unchanged (`"a1"`) and whose content is
exactly the returned text — but whose provenance fields (`model`, `provider`,
`tokens`, `cost`, `metadata`) are all still unset, because the
`updatedAssistantMessage` record built with them is never used and only
`updateMessage(id, text)` runs; on failure the placeholder's content becomes
the fixed apology notice. -/
theorem C2_theorem :
    (((handleSendMessage freshChat "hello" "u1" "a1" 1 2 settings0
          (Except.ok okResp) 3).1).conversations.map
        (fun conv => conv.messages.map (fun m =>
          (m.id, m.role, m.content, m.model, m.provider, m.tokens, m.cost, m.metadata))))
      = [[("u1", Role.user, "hello", none, none, none, none, none),
          ("a1", Role.assistant, "hi there", none, none, none, none, none)]] ∧
    (((handleSendMessage freshChat "hello" "u1" "a1" 1 2 settings0
          (Except.error err0) 3).1).conversations.map
        (fun conv => conv.messages.map (fun m => (m.id, m.role, m.content))))
      = [[("u1", Role.user, "hello"),
          ("a1", Role.assistant,
            "Sorry, there was an error processing your request. Please try again.")]] :=
  ⟨rfl, rfl⟩

/-! ## Claim C7 -/

/-- Recursive form of the user/assistant pair reconstruction, indexed by the
position of the first remaining history item. -/
def historyMessagesFrom (n : Nat) (now : Nat) : List HistoryItem → List ChatMessage
  | [] => []
  | item :: rest =>
      mkHistoryUserMsg n item now :: mkHistoryAssistantMsg n item now ::
        historyMessagesFrom (n + 1) now rest

/-- The enum/flatMap build of `loadConversationHistory` agrees with the
recursive form. -/
lemma enumFrom_flatMap_eq_historyMessagesFrom (now : Nat) (xs : List HistoryItem) :
    ∀ n, (List.enumFrom n xs).flatMap
        (fun p => [mkHistoryUserMsg p.1 p.2 now, mkHistoryAssistantMsg p.1 p.2 now])
      = historyMessagesFrom n now xs := by
  induction xs with
  | nil => intro n; rfl
  | cons x xs ih =>
      intro n
      simp only [List.enumFrom, List.flatMap_cons, List.cons_append, List.nil_append,
        historyMessagesFrom, ih]

/-- `historyMessages` is the recursive form started at index 0. -/
lemma historyMessages_eq_from (history : List HistoryItem) (now : Nat) :
    historyMessages history now = historyMessagesFrom 0 now history :=
  enumFrom_flatMap_eq_historyMessagesFrom now history 0

/-- The reconstruction yields two messages per history turn. -/
lemma historyMessagesFrom_length (now : Nat) (xs : List HistoryItem) :
    ∀ n, (historyMessagesFrom n now xs).length = 2 * xs.length := by
  induction xs with
  | nil => intro n; rfl
  | cons x xs ih =>
      intro n
      simp only [historyMessagesFrom, List.length_cons, ih, List.length]
      ring

/-- Positions `2*i` and `2*i+1` of the reconstruction hold the user and the
assistant message of turn `i`. -/
lemma historyMessagesFrom_get (now : Nat) (xs : List HistoryItem) :
    ∀ n i (hi : i < xs.length),
      (historyMessagesFrom n now xs).get? (2 * i)
          = some (mkHistoryUserMsg (n + i) (xs.get ⟨i, hi⟩) now) ∧
      (historyMessagesFrom n now xs).get? (2 * i + 1)
          = some (mkHistoryAssistantMsg (n + i) (xs.get ⟨i, hi⟩) now) := by
  induction xs with
  | nil => intro n i hi; simp at hi
  | cons x xs ih =>
      intro n i hi
      cases i with
      | zero => exact ⟨rfl, rfl⟩
      | succ j =>
          have hj : j < xs.length := Nat.succ_lt_succ_iff.mp (by simpa using hi)
          obtain ⟨ih1, ih2⟩ := ih (n + 1) j hj
          have e1 : 2 * (j + 1) = 2 * j + 1 + 1 := by ring
          have e2 : 2 * (j + 1) + 1 = (2 * j + 1) + 1 + 1 := by ring
          have en : n + 1 + j = n + (j + 1) := by omega
          constructor
          · rw [e1]
            simp only [historyMessagesFrom, List.get?_cons_succ]
            rw [ih1, en]
            rfl
          · rw [e2]
            simp only [historyMessagesFrom, List.get?_cons_succ]
            rw [ih2, en]
            rfl

/-- C7: a successful history load replaces the targeted conversation's message
list wholesale by the reconstructed list, which has exactly `2n` messages for
`n` turns; position `2i` holds the turn's user message and position `2i+1` its
assistant message, the user message carries the turn's user text and role
`user`, the assistant message the turn's assistant text and role `assistant`,
and each assistant timestamp is its paired user timestamp plus one. -/
theorem C7_theorem (st : ChatState) (cid : String) (now : Nat) (h : List HistoryItem) :
    (∀ conv ∈ (loadConversationHistory st cid now (Except.ok h)).conversations,
        conv.id = cid → conv.messages = historyMessages h now) ∧
    (historyMessages h now).length = 2 * h.length ∧
    (∀ i (hi : i < h.length),
        (historyMessages h now).get? (2 * i) = some (mkHistoryUserMsg i (h.get ⟨i, hi⟩) now) ∧
        (historyMessages h now).get? (2 * i + 1)
          = some (mkHistoryAssistantMsg i (h.get ⟨i, hi⟩) now)) ∧
    (∀ i item,
        (mkHistoryUserMsg i item now).role = Role.user ∧
        (mkHistoryUserMsg i item now).content = item.user ∧
        (mkHistoryAssistantMsg i item now).role = Role.assistant ∧
        (mkHistoryAssistantMsg i item now).content = item.assistant ∧
        (mkHistoryAssistantMsg i item now).timestamp
          = (mkHistoryUserMsg i item now).timestamp + 1) := by
  refine ⟨?_, ?_, ?_, ?_⟩
  · intro conv hconv hid
    simp only [loadConversationHistory, List.mem_map] at hconv
    obtain ⟨a, ha, hca⟩ := hconv
    by_cases hb : a.id = cid
    · rw [← hca]
      simp [hb]
    · rw [← hca] at hid
      simp [hb] at hid
  · rw [historyMessages_eq_from]
    exact historyMessagesFrom_length now h 0
  · intro i hi
    rw [historyMessages_eq_from]
    have := historyMessagesFrom_get now h 0 i hi
    simpa using this
  · intro i item
    exact ⟨rfl, rfl, rfl, rfl, rfl⟩

/-- A history turn with an explicit metadata timestamp. -/
def histItem (u a : String) (t : Nat) : HistoryItem :=
  { user := u, assistant := a
    metadata := { timestamp := some t, model_used := none, provider := none
                  tokens_used := none, cost := none } }

/-- The spec's two-turn history scenario. -/
def hist2 : List HistoryItem := [histItem "a" "b" 5, histItem "c" "d" 6]

/-- C7, witness: the theorem applied to the two-turn scenario — the target
conversation after the load carries exactly the reconstructed messages, and
the reconstruction has four messages. -/
theorem C7_witness :
    ({ freshConv with messages := historyMessages hist2 100, updatedAt := 100 }
        : Conversation).messages = historyMessages hist2 100 ∧
    (historyMessages hist2 100).length = 2 * 2 :=
  ⟨(C7_theorem freshChat "conv1" 100 hist2).1
      ({ freshConv with messages := historyMessages hist2 100, updatedAt := 100 })
      (by simp [loadConversationHistory, freshChat, freshConv]) rfl,
   (C7_theorem freshChat "conv1" 100 hist2).2.1⟩

/-! ## Claim C3 -/

/-- A push request fixture. -/
def req0 : WsChatRequest :=
  { prompt := "hi", conversation_id := none, system_prompt := none, max_tokens := none
    temperature := none, top_p := none, task_type := none, user_id := none }

/-- An incoming push payload echoing the correlation identifier `"m1"`. -/
def resp1 : PushResponse :=
  { message_id := some "m1", text := "reply-1", model_used := "m", provider := "p"
    tokens_used := 1, cost := 0, latency_ms := 1, error := none }

/-- A second incoming push payload, also correlated to `"m1"`. -/
def resp2 : PushResponse :=
  { message_id := some "m1", text := "reply-2", model_used := "m", provider := "p"
    tokens_used := 1, cost := 0, latency_ms := 1, error := none }

/-- C3: with handlers registered under `"m1"` (tag 1) and `"m2"` (tag 2), an
incoming push message that echoes the matching identifier `"m1"` is delivered
to BOTH handlers — `handleMessage` broadcasts unconditionally and never
performs the per-identifier dispatch the claim describes. -/
theorem C3_theorem :
    (handleMessage
        ((sendMessage ((sendMessage { messageHandlers := [] } req0 "m1" 1).1) req0 "m2" 2).1)
        resp1).2
      = [(1, resp1), (2, resp1)] :=
  rfl

/-! ## Claim C8 -/

/-- C8: one exchange is registered under `"m1"`; the first incoming message
resolves it (the handler is invoked with the payload), yet the entry is still
present in the `messageHandlers` map afterwards and the handler is invoked
again by the next incoming message — `handleMessage` never removes entries. -/
theorem C8_theorem :
    ((handleMessage ((sendMessage { messageHandlers := [] } req0 "m1" 1).1) resp1).2
      = [(1, resp1)]) ∧
    ((handleMessage ((sendMessage { messageHandlers := [] } req0 "m1" 1).1) resp1).1.messageHandlers
      = [("m1", 1)]) ∧
    ((handleMessage
        (handleMessage ((sendMessage { messageHandlers := [] } req0 "m1" 1).1) resp1).1
        resp2).2
      = [(1, resp2)]) :=
  ⟨rfl, rfl, rfl⟩

end LexOS
